import Mathlib

/-!
Verification of the percentage-change engine of `streamlit_app.py`.

The engine works on the "Adj Close" time series: a date-indexed table with
one column of adjusted closing prices per symbol.  The engine is applied to
each symbol column independently, so a column is embedded as `List ℚ`
(oldest first, most recent last) and a dated table as `List (ℤ × ℚ)`
(date, adjusted close).  Real numbers are embedded as `ℚ`; the float `NaN`
that pandas produces for rows without enough history (the script passes
`fill_method=None` to `pct_change`) is embedded as `Option ℚ` with `none`
for `NaN`, and every comparison against `NaN` is `false`, exactly as in
IEEE/pandas semantics.
-/

namespace StockDash

/-- The configured look-back windows, line 19 of the source:
`DAYS_BACK = [1, 7, 30, 90, 180]` (the 365-day window is commented out by
the `TODO: 365d change doesn't work` note). -/
def DAYS_BACK : List Nat := [1, 7, 30, 90, 180]

/-- The glyph dictionary `CHANGE_ICONS`, lines 20-26 of the source,
as an association list label → glyph. -/
def CHANGE_ICONS : List (String × String) :=
  [("Big Negative Drop < -10%", "📉"),
   ("Small Negative Drop [-1%, 10%]", "🔻"),
   ("Neutral Change (-1%, 1%)", ""),
   ("Small Positive Rise [1%, 10%]", "🟢"),
   ("Big Positive Rise > 10%", "🚀")]

/-- Dictionary access `CHANGE_ICONS[label]`; every key used by the script
is present, so the default is never reached. -/
def icon (label : String) : String := (CHANGE_ICONS.lookup label).getD ""

/-- One entry of pandas `Series.pct_change(n, fill_method=None)`:
`result[i] = x[i] / x[i-n] - 1` when `n ≤ i`, and `NaN` (here `none`)
for the first `n` rows. -/
def pct_change_at (xs : List ℚ) (n i : Nat) : Option ℚ :=
  if n ≤ i then
    match xs[i]?, xs[i - n]? with
    | some cur, some prev => some (cur / prev - 1)
    | _, _ => none
  else none

/-- `stock_data['Adj Close'].pct_change(days_back, fill_method=None)`
(line 70 of the source) for one symbol column: the whole derived series. -/
def pct_change (xs : List ℚ) (n : Nat) : List (Option ℚ) :=
  (List.range xs.length).map (pct_change_at xs n)

/-- `pct_changes[days_back].iloc[-1]` for one symbol: the last row of the
derived series (line 77 of the source). -/
def pct_change_last (xs : List ℚ) (n : Nat) : Option ℚ :=
  ((pct_change xs n).getLast?).getD none

/-- `(pct_changes[days_back].iloc[-1] * 100).astype(float)` for one
symbol (line 77): the percent change scaled to percentage points;
`NaN * 100 = NaN`. -/
def pct_scaled (xs : List ℚ) (n : Nat) : Option ℚ :=
  (pct_change_last xs n).map (fun v => v * 100)

/-- `val < c` where `val` may be `NaN`: every comparison with `NaN`
is `false` (pandas/IEEE semantics). -/
def nanLt (x : Option ℚ) (c : ℚ) : Bool :=
  match x with
  | none => false
  | some v => decide (v < c)

/-- `val <= c` with `NaN`-is-`false` semantics. -/
def nanLe (x : Option ℚ) (c : ℚ) : Bool :=
  match x with
  | none => false
  | some v => decide (v ≤ c)

/-- `val > c` with `NaN`-is-`false` semantics. -/
def nanGt (x : Option ℚ) (c : ℚ) : Bool :=
  match x with
  | none => false
  | some v => decide (c < v)

/-- `val >= c` with `NaN`-is-`false` semantics. -/
def nanGe (x : Option ℚ) (c : ℚ) : Bool :=
  match x with
  | none => false
  | some v => decide (c ≤ v)

/-- The classification chain of lines 79-93 of the source, producing the
glyph appended to `color_coded` for one value `val` (already scaled to
percentage points, possibly `NaN`). -/
def color_coded (val : Option ℚ) : String :=
  if nanLt val 0 then
    if nanLt val (-10) then icon "Big Negative Drop < -10%"
    else if nanLe val (-1) then icon "Small Negative Drop [-1%, 10%]"
    else icon "Neutral Change (-1%, 1%)"
  else
    if nanGt val 10 then icon "Big Positive Rise > 10%"
    else if nanGe val 1 then icon "Small Positive Rise [1%, 10%]"
    else ""

/-- The five severity buckets of the spec, ordered
BigDrop < SmallDrop < Neutral < SmallRise < BigRise. -/
inductive Bucket : Type
  | bigDrop
  | smallDrop
  | neutral
  | smallRise
  | bigRise
deriving DecidableEq, Repr

/-- Position of a bucket in the order
BigDrop < SmallDrop < Neutral < SmallRise < BigRise. -/
def bucketRank : Bucket → Nat
  | Bucket.bigDrop => 0
  | Bucket.smallDrop => 1
  | Bucket.neutral => 2
  | Bucket.smallRise => 3
  | Bucket.bigRise => 4

/-- The glyph each bucket carries in `CHANGE_ICONS`. -/
def glyph : Bucket → String
  | Bucket.bigDrop => "📉"
  | Bucket.smallDrop => "🔻"
  | Bucket.neutral => ""
  | Bucket.smallRise => "🟢"
  | Bucket.bigRise => "🚀"

/-- The same decision chain as `color_coded` (lines 79-93), tagging the
branch taken with its bucket instead of appending the glyph; `val` is in
percentage points.  `color_coded_some` below proves the two agree. -/
def classify (val : ℚ) : Bucket :=
  if val < 0 then
    if val < -10 then Bucket.bigDrop
    else if val ≤ -1 then Bucket.smallDrop
    else Bucket.neutral
  else
    if 10 < val then Bucket.bigRise
    else if 1 ≤ val then Bucket.smallRise
    else Bucket.neutral

/-- Round a rational to the nearest integer, ties to even — the rounding
Python's fixed-point float formatting uses. -/
def roundHalfEven (q : ℚ) : ℤ :=
  let f := ⌊q⌋
  let r := q - f
  if r < 1/2 then f
  else if 1/2 < r then f + 1
  else if f % 2 = 0 then f else f + 1

/-- Python `f"{q:.1f}"` on an exact (non-`NaN`) value: one fractional
digit, round half to even, sign taken from the value. -/
def pyFormat1 (q : ℚ) : String :=
  let n := roundHalfEven (q * 10)
  let s := if q < 0 then "-" else ""
  s ++ Nat.repr (n.natAbs / 10) ++ "." ++ Nat.repr (n.natAbs % 10)

/-- Python `f"{val:.1f}"` where `val` may be `NaN`
(`f"{float('nan'):.1f}"` is `"nan"`). -/
def pyFormat1Nan (val : Option ℚ) : String :=
  match val with
  | none => "nan"
  | some q => pyFormat1 q

/-- One cell of the summary table: line 94 of the source,
`f"{val:.1f}% {emoji}"` with `emoji = color_coded` of the same value. -/
def format_cell (val : Option ℚ) : String :=
  pyFormat1Nan val ++ "% " ++ color_coded val

/-- The `pct_change_{days_back}d` cell of `df_viz` for one symbol column
(lines 76-94 of the source): scale the last percent change to percentage
points, classify it, format it. -/
def summary_cell (xs : List ℚ) (n : Nat) : String :=
  format_cell (pct_scaled xs n)

/-- A dated table for one symbol: (date, adjusted close) rows, oldest
first.  `pct_change` never reads the dates; they only matter for the
ordering discussion. -/
def table_values (t : List (ℤ × ℚ)) : List ℚ := t.map Prod.snd

/-- The dates of a dated table, in row order. -/
def table_dates (t : List (ℤ × ℚ)) : List ℤ := t.map Prod.fst

/-- Strict ascending order of a date list (adjacent rows strictly
increase). -/
def strictlyIncreasing : List ℤ → Bool
  | [] => true
  | [_] => true
  | a :: b :: rest => decide (a < b) && strictlyIncreasing (b :: rest)

/-- The engine applied to a dated table: the last percent change of its
value column.  The source performs no check of the dates whatsoever. -/
def engine_pct_last (t : List (ℤ × ℚ)) (n : Nat) : Option ℚ :=
  pct_change_last (table_values t) n

/-!
Exact `ℚ` arithmetic stands in for the program's float64 wherever the two
readings agree.  Where IEEE-754 double rounding itself decides a boundary
— the 9-row scenario below lands exactly on the 10% threshold — the
rounding is modelled explicitly: `fl64` is round-to-nearest, ties-to-even
at 53-bit precision, the double rounding for all magnitudes far from
overflow and subnormals (every value in this development).
-/

/-- Largest e with 2^e ≤ q, for q ≥ 1, by fuel-bounded halving. -/
def floorLog2Up : Nat → ℚ → ℤ
  | 0, _ => 0
  | f + 1, q => if q < 2 then 0 else 1 + floorLog2Up f (q / 2)

/-- Largest e with 2^e ≤ q, for 0 < q < 1, by fuel-bounded doubling. -/
def floorLog2Down : Nat → ℚ → ℤ
  | 0, _ => 0
  | f + 1, q => if 1 ≤ q then 0 else floorLog2Down f (2 * q) - 1

/-- Largest e with 2^e ≤ q, for q > 0.  The fuel 80 makes this exact for
every magnitude in [2^-80, 2^80], which covers every value this engine
can see by many orders of magnitude. -/
def floorLog2 (q : ℚ) : ℤ :=
  if 1 ≤ q then floorLog2Up 80 q else floorLog2Down 80 q

/-- 2^n as a rational, by structural doubling. -/
def pow2Nat : Nat → ℚ
  | 0 => 1
  | n + 1 => 2 * pow2Nat n

/-- 2^e for an integer e, as a rational (one of the two factors is 2^0). -/
def pow2 (e : ℤ) : ℚ := pow2Nat e.toNat / pow2Nat (-e).toNat

/-- Round a rational to the nearest IEEE-754 double: scale the magnitude
into [2^52, 2^53), round to an integer mantissa with ties to even, scale
back, keep the sign.  Faithful away from overflow and subnormals. -/
def fl64 (q : ℚ) : ℚ :=
  if q = 0 then 0
  else
    (if q < 0 then (-1 : ℚ) else 1) *
      ((roundHalfEven (|q| * pow2 (52 - floorLog2 |q|)) : ℚ) * pow2 (floorLog2 |q| - 52))

/-- Float64 division: the exact quotient, correctly rounded. -/
def fl_div (a b : ℚ) : ℚ := fl64 (a / b)

/-- Float64 subtraction: the exact difference, correctly rounded. -/
def fl_sub (a b : ℚ) : ℚ := fl64 (a - b)

/-- Float64 multiplication: the exact product, correctly rounded. -/
def fl_mul (a b : ℚ) : ℚ := fl64 (a * b)

/-- One entry of pandas `pct_change(n, fill_method=None)` under float64
semantics: pandas computes `data.div(data.shift(n)) - 1`, one rounded
division followed by one rounded subtraction. -/
def float_pct_change_at (xs : List ℚ) (n i : Nat) : Option ℚ :=
  if n ≤ i then
    match xs[i]?, xs[i - n]? with
    | some cur, some prev => some (fl_sub (fl_div cur prev) 1)
    | _, _ => none
  else none

/-- The last row of the float64 `pct_change` series (line 77's
`iloc[-1]`). -/
def float_pct_change_last (xs : List ℚ) (n : Nat) : Option ℚ :=
  (((List.range xs.length).map (float_pct_change_at xs n)).getLast?).getD none

/-- Line 77's `* 100` under float64 semantics: one rounded
multiplication. -/
def float_pct_scaled (xs : List ℚ) (n : Nat) : Option ℚ :=
  (float_pct_change_last xs n).map (fun v => fl_mul v 100)

/-- The assembled `pct_change_{n}d` cell under float64 semantics: the
classification chain and the format compare and render the exact value
the double represents. -/
def float_summary_cell (xs : List ℚ) (n : Nat) : String :=
  format_cell (float_pct_scaled xs n)

/-! ## Helper lemmas -/

theorem pct_change_at_spec (xs : List ℚ) (n i : Nat) (hi : i < xs.length) (hn : n ≤ i) :
    pct_change_at xs n i = some (xs.getD i 0 / xs.getD (i - n) 0 - 1) := by
  have hin : i - n < xs.length := lt_of_le_of_lt (Nat.sub_le i n) hi
  rw [pct_change_at, if_pos hn, List.getElem?_eq_getElem hi, List.getElem?_eq_getElem hin,
      List.getD_eq_getElem xs 0 hi, List.getD_eq_getElem xs 0 hin]

theorem pct_change_getLast (xs : List ℚ) (n m : Nat) (hm : xs.length = m + 1) :
    (pct_change xs n).getLast? = some (pct_change_at xs n m) := by
  rw [pct_change, List.getLast?_map, hm]
  simp [List.range_succ]

theorem pct_change_last_spec (xs : List ℚ) (n : Nat) (h : n + 1 ≤ xs.length) :
    pct_change_last xs n =
      some (xs.getD (xs.length - 1) 0 / xs.getD (xs.length - 1 - n) 0 - 1) := by
  obtain ⟨m, hm⟩ : ∃ m, xs.length = m + 1 := ⟨xs.length - 1, by omega⟩
  have hi : m < xs.length := by omega
  have hn2 : n ≤ m := by omega
  rw [pct_change_last, pct_change_getLast xs n m hm, Option.getD_some,
      pct_change_at_spec xs n m hi hn2, hm]
  norm_num

theorem pct_change_last_none (xs : List ℚ) (n : Nat) (h : xs.length < n + 1) :
    pct_change_last xs n = none := by
  cases hxs : xs.length with
  | zero => simp [pct_change_last, pct_change, hxs]
  | succ m =>
    rw [pct_change_last, pct_change_getLast xs n m hxs, Option.getD_some, pct_change_at,
        if_neg (by omega)]

theorem table_values_length (t : List (ℤ × ℚ)) : (table_values t).length = t.length :=
  List.length_map t Prod.snd

theorem icon_big_drop : icon "Big Negative Drop < -10%" = "📉" := by decide

theorem icon_small_drop : icon "Small Negative Drop [-1%, 10%]" = "🔻" := by decide

theorem icon_neutral : icon "Neutral Change (-1%, 1%)" = "" := by decide

theorem icon_big_rise : icon "Big Positive Rise > 10%" = "🚀" := by decide

theorem icon_small_rise : icon "Small Positive Rise [1%, 10%]" = "🟢" := by decide

/-- The glyph appended by the lines 79-93 chain on a present value is the
glyph of the bucket `classify` computes: the two definitions take the same
branches. -/
theorem color_coded_some (v : ℚ) : color_coded (some v) = glyph (classify v) := by
  rw [color_coded, classify]
  simp only [nanLt, nanLe, nanGt, nanGe, decide_eq_true_eq]
  split_ifs <;>
    simp [icon_big_drop, icon_small_drop, icon_neutral, icon_big_rise, icon_small_rise, glyph]

theorem string_append_empty (s : String) : s ++ "" = s := by
  cases s with
  | mk data => show String.mk (data ++ []) = String.mk data
               rw [List.append_nil]

/-! ## Claim theorems -/

/-- C1: for every ascending-sorted dated table with at least N+1 rows and
every configured window N, the calculator's last-row percent change equals
the direct ratio of the last value to the value N rows earlier, minus
one. -/
theorem calculator_eq_direct_ratio (t : List (ℤ × ℚ)) (n : Nat)
    (hs : strictlyIncreasing (table_dates t) = true)
    (hn : n ∈ DAYS_BACK) (h : n + 1 ≤ t.length) :
    engine_pct_last t n =
      some ((table_values t).getD (t.length - 1) 0 /
        (table_values t).getD (t.length - 1 - n) 0 - 1) := by
  have hlen : (table_values t).length = t.length := table_values_length t
  rw [engine_pct_last, pct_change_last_spec (table_values t) n (by omega), hlen]

/-- Witness for C1 at the two-row table [(1, 100), (2, 110)] with window 1. -/
theorem calculator_eq_direct_ratio_witness :
    strictlyIncreasing (table_dates [((1:ℤ), (100:ℚ)), (2, 110)]) = true ∧
    1 ∈ DAYS_BACK ∧ 1 + 1 ≤ ([((1:ℤ), (100:ℚ)), (2, 110)]).length ∧
    engine_pct_last [((1:ℤ), (100:ℚ)), (2, 110)] 1 =
      some ((table_values [((1:ℤ), (100:ℚ)), (2, 110)]).getD (2 - 1) 0 /
        (table_values [((1:ℤ), (100:ℚ)), (2, 110)]).getD (2 - 1 - 1) 0 - 1) :=
  ⟨by decide, by decide, by decide,
   calculator_eq_direct_ratio [((1:ℤ), (100:ℚ)), (2, 110)] 1 (by decide) (by decide) (by decide)⟩

/-- C2: the classifier maps a percent-change fraction v (the code works on
v × 100 percentage points) into the five buckets with inclusive 1% and 10%
bounds on the Small buckets, and the boundary values -0.10, -0.01, 0.01,
0.10 classify as SmallDrop, SmallDrop, SmallRise, SmallRise. -/
theorem classifier_boundary_buckets (v : ℚ) :
    (v < -(1/10) → classify (v * 100) = Bucket.bigDrop) ∧
    (-(1/10) ≤ v → v ≤ -(1/100) → classify (v * 100) = Bucket.smallDrop) ∧
    (-(1/100) < v → v < 1/100 → classify (v * 100) = Bucket.neutral) ∧
    ((1:ℚ)/100 ≤ v → v ≤ 1/10 → classify (v * 100) = Bucket.smallRise) ∧
    ((1:ℚ)/10 < v → classify (v * 100) = Bucket.bigRise) ∧
    classify ((-(1/10) : ℚ) * 100) = Bucket.smallDrop ∧
    classify ((-(1/100) : ℚ) * 100) = Bucket.smallDrop ∧
    classify (((1:ℚ)/100) * 100) = Bucket.smallRise ∧
    classify (((1:ℚ)/10) * 100) = Bucket.smallRise := by
  refine ⟨?_, fun h1 h2 => ?_, fun h1 h2 => ?_, fun h1 h2 => ?_, ?_, ?_, ?_, ?_, ?_⟩ <;>
    first
      | (intro h1; rw [classify]; split_ifs <;> first | rfl | linarith)
      | (rw [classify]; split_ifs <;> first | rfl | linarith)

/-- Witness for C2: 0.02 lies in [0.01, 0.10] and classifies as SmallRise. -/
theorem classifier_boundary_buckets_witness :
    classify (((2:ℚ)/100) * 100) = Bucket.smallRise :=
  (classifier_boundary_buckets (2/100)).2.2.2.1 (by norm_num) (by norm_num)

/-- C6: for every table with fewer than N+1 rows and every configured
window N, the calculator's result is the explicit absent marker (`none`,
the embedding of pandas `NaN`), not an exception and not a wraparound
value. -/
theorem insufficient_history_is_absent (xs : List ℚ) (n : Nat)
    (hn : n ∈ DAYS_BACK) (h : xs.length < n + 1) :
    pct_change_last xs n = none :=
  pct_change_last_none xs n h

/-- Witness for C6 at the one-row table [100] with window 7. -/
theorem insufficient_history_is_absent_witness :
    7 ∈ DAYS_BACK ∧ ([(100:ℚ)]).length < 7 + 1 ∧ pct_change_last [(100:ℚ)] 7 = none :=
  ⟨by decide, by decide, insufficient_history_is_absent [(100:ℚ)] 7 (by decide) (by decide)⟩

/-- C7 counterexample: the 365-row window is not in the configured window
set (line 19 of the source: `DAYS_BACK = [1, 7, 30, 90, 180]`, with the
`TODO: 365d change doesn't work` note). -/
theorem days_back_excludes_365 : 365 ∉ DAYS_BACK := by decide

/-- C7 amended: the configured window set is exactly {1, 7, 30, 90, 180} —
five windows, without 365. -/
theorem days_back_configured_set :
    (1 ∈ DAYS_BACK ∧ 7 ∈ DAYS_BACK ∧ 30 ∈ DAYS_BACK ∧ 90 ∈ DAYS_BACK ∧ 180 ∈ DAYS_BACK) ∧
    DAYS_BACK.length = 5 := by decide

/-- C10: the classifier is monotone with respect to the bucket order
BigDrop < SmallDrop < Neutral < SmallRise < BigRise. -/
theorem classifier_monotone (v1 v2 : ℚ) (h : v1 ≤ v2) :
    bucketRank (classify v1) ≤ bucketRank (classify v2) := by
  rw [classify, classify]
  split_ifs <;> simp [bucketRank] <;> linarith

/-- Witness for C10 at the pair 0 ≤ 5. -/
theorem classifier_monotone_witness :
    bucketRank (classify (0:ℚ)) ≤ bucketRank (classify 5) :=
  classifier_monotone 0 5 (by norm_num)

/-- C4 counterexample: an absent percent change (one-row table, window 7,
so pandas yields `NaN`) is sent by the classification chain to the empty
glyph — the Neutral bucket's glyph — and the assembled cell is the string
"nan% ", not an "N/A" placeholder. -/
theorem absent_value_neutral_counterexample :
    color_coded (pct_scaled [(100:ℚ)] 7) = glyph Bucket.neutral ∧
    summary_cell [(100:ℚ)] 7 = "nan% " ∧
    summary_cell [(100:ℚ)] 7 ≠ "N/A" := by
  refine ⟨?_, ?_, ?_⟩ <;> with_unfolding_all decide

/-- C4 amended: for every nonempty table with fewer than N+1 rows, the
absent percent change falls through the classification chain into the
empty (Neutral) glyph branch and the cell renders as "nan% " — there is no
distinguished no-data state and no "N/A" placeholder. -/
theorem absent_value_renders_nan (xs : List ℚ) (n : Nat)
    (hpos : 0 < xs.length) (h : xs.length < n + 1) :
    summary_cell xs n = "nan% " ∧
    color_coded (pct_scaled xs n) = glyph Bucket.neutral := by
  have hps : pct_scaled xs n = none := by
    rw [pct_scaled, pct_change_last_none xs n h]
    rfl
  rw [summary_cell, hps]
  exact ⟨by with_unfolding_all decide, by with_unfolding_all decide⟩

/-- Witness for the amended C4 at the one-row table [100] with window 7. -/
theorem absent_value_renders_nan_witness :
    0 < ([(100:ℚ)]).length ∧ ([(100:ℚ)]).length < 7 + 1 ∧
    (summary_cell [(100:ℚ)] 7 = "nan% " ∧
      color_coded (pct_scaled [(100:ℚ)] 7) = glyph Bucket.neutral) :=
  ⟨by decide, by decide, absent_value_renders_nan [(100:ℚ)] 7 (by decide) (by decide)⟩

/-- C5 counterexample: the dated table [(2, 100), (1, 50)] has dates that
are not strictly increasing, yet the engine produces the percent change
-1/2 from it — no rejection, no UnsortedInputError. -/
theorem unsorted_input_counterexample :
    strictlyIncreasing (table_dates [((2:ℤ), (100:ℚ)), (1, 50)]) = false ∧
    engine_pct_last [((2:ℤ), (100:ℚ)), (1, 50)] 1 = some (-(1/2)) := by
  constructor
  · decide
  · with_unfolding_all decide

/-- C5 amended: the engine performs no ordering check at all — for every
table whose dates are not strictly increasing but which has at least N+1
rows, a percent-change value is still produced. -/
theorem unsorted_input_not_rejected (t : List (ℤ × ℚ)) (n : Nat)
    (hu : strictlyIncreasing (table_dates t) = false) (h : n + 1 ≤ t.length) :
    (engine_pct_last t n).isSome = true := by
  rw [engine_pct_last,
      pct_change_last_spec (table_values t) n (by rw [table_values_length]; omega)]
  rfl

/-- Witness for the amended C5 at the unsorted table [(2, 100), (1, 50)]. -/
theorem unsorted_input_not_rejected_witness :
    strictlyIncreasing (table_dates [((2:ℤ), (100:ℚ)), (1, 50)]) = false ∧
    1 + 1 ≤ ([((2:ℤ), (100:ℚ)), (1, 50)]).length ∧
    (engine_pct_last [((2:ℤ), (100:ℚ)), (1, 50)] 1).isSome = true :=
  ⟨by decide, by decide,
   unsorted_input_not_rejected [((2:ℤ), (100:ℚ)), (1, 50)] 1 (by decide) (by decide)⟩

set_option maxRecDepth 20000 in
/-- C8 counterexample: on [100, 100, 100, 100, 100, 100, 100, 100, 110]
with window 7 the program's float64 percent change is not exactly 1/10 —
110.0/100.0 rounds up to the double above 1.1, so the change lands just
above the 10% threshold — and the assembled cell is "10.0% 🚀", not
"10.0% 🟢". -/
theorem concrete_scenario_window7_counterexample :
    float_pct_change_last [100, 100, 100, 100, 100, 100, 100, 100, (110:ℚ)] 7 ≠
      some (1/10) ∧
    float_summary_cell [100, 100, 100, 100, 100, 100, 100, 100, (110:ℚ)] 7 = "10.0% 🚀" ∧
    float_summary_cell [100, 100, 100, 100, 100, 100, 100, 100, (110:ℚ)] 7 ≠ "10.0% 🟢" := by
  refine ⟨?_, ?_, ?_⟩ <;> with_unfolding_all decide

set_option maxRecDepth 20000 in
/-- C8 amended: on [100, 100, 100, 100, 100, 100, 100, 100, 110] with
window 7 the float64 percent change is defined but strictly above 1/10
(the double nearest 110/100 lies above 1.1, so the change rounds to
450359962737050/2^52 ≈ 0.10000000000000009), the scaled value is strictly
above the 10% threshold, so it classifies as BigRise and the cell renders
"10.0% 🚀" (the value still formats to "10.0" at one decimal). -/
theorem concrete_scenario_window7_float :
    nanGt (float_pct_change_last [100, 100, 100, 100, 100, 100, 100, 100, (110:ℚ)] 7)
      (1/10) = true ∧
    nanGt (float_pct_scaled [100, 100, 100, 100, 100, 100, 100, 100, (110:ℚ)] 7) 10 = true ∧
    (float_pct_scaled [100, 100, 100, 100, 100, 100, 100, 100, (110:ℚ)] 7).map classify =
      some Bucket.bigRise ∧
    float_summary_cell [100, 100, 100, 100, 100, 100, 100, 100, (110:ℚ)] 7 = "10.0% 🚀" := by
  refine ⟨?_, ?_, ?_, ?_⟩ <;> with_unfolding_all decide

/-- C9 counterexample: for the table [1000, 1005] with window 1 the change
is 0.5 percentage points, the glyph is empty (Neutral), and the assembled
cell is "0.5% " with a trailing space — not "0.5%" with no suffix. -/
theorem neutral_cell_trailing_space_counterexample :
    summary_cell [1000, (1005:ℚ)] 1 = "0.5% " ∧
    summary_cell [1000, (1005:ℚ)] 1 ≠ "0.5%" := by
  constructor <;> with_unfolding_all decide

/-- C9 amended: every cell with a defined percent change is the value
formatted to one decimal place, then "% ", then the classifier's glyph;
when the glyph is empty (Neutral) the cell still ends with the "% "
separator, a trailing space. -/
theorem cell_format_shape (xs : List ℚ) (n : Nat) (v : ℚ)
    (h : pct_scaled xs n = some v) :
    summary_cell xs n = pyFormat1 v ++ "% " ++ glyph (classify v) ∧
    (classify v = Bucket.neutral → summary_cell xs n = pyFormat1 v ++ "% ") := by
  rw [summary_cell, h, format_cell, pyFormat1Nan, color_coded_some]
  refine ⟨rfl, fun hn => ?_⟩
  rw [hn]
  show (pyFormat1 v ++ "% ") ++ "" = pyFormat1 v ++ "% "
  exact string_append_empty _

/-- Witness for the amended C9 at the table [1000, 1005], window 1,
value 0.5. -/
theorem cell_format_shape_witness :
    pct_scaled [1000, (1005:ℚ)] 1 = some (1/2) ∧
    (summary_cell [1000, (1005:ℚ)] 1 = pyFormat1 (1/2) ++ "% " ++ glyph (classify (1/2)) ∧
      (classify ((1:ℚ)/2) = Bucket.neutral →
        summary_cell [1000, (1005:ℚ)] 1 = pyFormat1 (1/2) ++ "% ")) :=
  ⟨by with_unfolding_all decide,
   cell_format_shape [1000, (1005:ℚ)] 1 (1/2) (by with_unfolding_all decide)⟩

end StockDash
